import Mathlib

/-!
Verification of the tabular-extraction script `read_excel.py`.

The script loads a spreadsheet, resolves two columns by a case-insensitive
substring heuristic ("response"+"id" for the identifier, "reason"+"rejection"
for the rejection reason), iterates the rows, normalizes the two cells, and
prints a single JSON payload (success or error) with exit code 0 or 1.

We embed the script shallowly:
  * a cell is `Option String`: `none` models a missing value (`pd.notna`
    false), `some s` models a present value whose `str(...)` form is `s`;
  * a row is a function from column name to cell (`row[col]` access);
  * Python `str.strip()` becomes `pyStrip`, `str.lower()` becomes
    `lowerChars`, substring containment (`'x' in s`) becomes `hasSub`;
  * the `try/except` boundary becomes `program`, taking an
    `Except (String × String) Spreadsheet` input: a load failure carries the
    exception message and the diagnostic (`str(sys.exc_info())`) text;
  * printing one JSON document and exiting becomes returning an `Output`
    value holding the single payload and the exit code.
-/

/-- Python whitespace for `str.strip()`: space, tab, newline, carriage
return, vertical tab, form feed. -/
def pySpace (c : Char) : Bool :=
  c = ' ' || c = '\t' || c = '\n' || c = '\r' || c = '\x0B' || c = '\x0C'

/-- Trim leading and trailing `pySpace` characters from a character list. -/
def stripChars (l : List Char) : List Char :=
  ((l.dropWhile pySpace).reverse.dropWhile pySpace).reverse

/-- Python `str.strip()`. -/
def pyStrip (s : String) : String := String.mk (stripChars s.toList)

/-- `leadsList pat l` is true when `pat` is an initial segment of `l`. -/
def leadsList : List Char → List Char → Bool
  | [], _ => true
  | _ :: _, [] => false
  | a :: pat, b :: l => a == b && leadsList pat l

/-- `hasSub pat l` is Python `pat in l`: `pat` occurs contiguously in `l`. -/
def hasSub (pat : List Char) : List Char → Bool
  | [] => pat.isEmpty
  | c :: t => leadsList pat (c :: t) || hasSub pat t

/-- Python `str(col).lower()` as a character list (ASCII case fold). -/
def lowerChars (s : String) : List Char := s.toList.map Char.toLower

/-- The identifier-column heuristic from the script:
`'response' in col_lower and 'id' in col_lower`. -/
def matchesId (col : String) : Bool :=
  hasSub "response".toList (lowerChars col) && hasSub "id".toList (lowerChars col)

/-- The reason-column heuristic from the script:
`'reason' in col_lower and 'rejection' in col_lower`. -/
def matchesReason (col : String) : Bool :=
  hasSub "reason".toList (lowerChars col) && hasSub "rejection".toList (lowerChars col)

/-- The column-resolution loop: scan the columns in order, each match
overwrites the previous candidate, so the last match wins.  The first
component is `responseIdCol`, the second `reasonCol`. -/
def resolveCols (cols : List String) : Option String × Option String :=
  cols.foldl
    (fun acc col =>
      (if matchesId col then some col else acc.1,
       if matchesReason col then some col else acc.2))
    (none, none)

/-- A spreadsheet row: cell access by column name.  `none` models a cell
for which `pd.notna` is false; `some s` a present cell with string form `s`. -/
def Row : Type := String → Option String

/-- The in-memory spreadsheet: ordered column names and ordered rows. -/
structure Spreadsheet where
  columns : List String
  rows : List Row

/-- One emitted record: `{'responseId': ..., 'reason': ...}`. -/
structure Record where
  responseId : String
  reason : String
deriving DecidableEq, Repr

/-- The single JSON document the script prints. -/
inductive Payload where
  /-- `{'success': True, 'data': ..., 'total': ...}` -/
  | success (data : List Record) (total : Nat)
  /-- `{'error': ..., 'columns': ...}` (column-not-found cases) -/
  | errorColumns (error : String) (columns : List String)
  /-- `{'error': ..., 'traceback': ...}` (the top-level except clause) -/
  | errorTraceback (error : String) (traceback : String)
deriving DecidableEq

/-- Observable behaviour of one invocation: the one payload printed to
standard output, and the process exit code. -/
structure Output where
  payload : Payload
  exitCode : Nat
deriving DecidableEq

/-- Python falsiness of `responseIdCol` / `reasonCol` in `if not ...`:
`None` and the empty string are falsy. -/
def pyFalsyOpt : Option String → Bool
  | none => true
  | some s => s == ""

/-- The reason expression of the script:
`reason if reason and reason != 'nan' else 'Manual Rejection'`,
where `reason` is the stripped cell (or `None` when the cell is missing). -/
def reasonOut : Option String → String
  | none => "Manual Rejection"
  | some v => if v ≠ "" ∧ v ≠ "nan" then v else "Manual Rejection"

/-- The body of the row loop: strip both cells, and emit a record exactly
when `responseId` is truthy and differs from `'nan'` and `'None'`. -/
def processRow (ic rc : String) (r : Row) : Option Record :=
  match r ic with
  | none => none
  | some raw =>
      if pyStrip raw ≠ "" ∧ pyStrip raw ≠ "nan" ∧ pyStrip raw ≠ "None" then
        some ⟨pyStrip raw, reasonOut ((r rc).map pyStrip)⟩
      else none

/-- The whole `try` body once the spreadsheet has loaded: resolve the two
columns, early-exit with an error payload when one is missing, otherwise
build the data list row by row and print the success payload. -/
def runScript (s : Spreadsheet) : Output :=
  let cols := resolveCols s.columns
  if pyFalsyOpt cols.1 then
    ⟨.errorColumns "Response ID column not found" s.columns, 1⟩
  else if pyFalsyOpt cols.2 then
    ⟨.errorColumns "Reason for Rejection column not found" s.columns, 1⟩
  else
    let data := s.rows.filterMap (processRow (cols.1.getD "") (cols.2.getD ""))
    ⟨.success data data.length, 0⟩

/-- The script with its `try/except` boundary: a load failure carries the
exception message and the `str(sys.exc_info())` diagnostic text and is turned
into the `{'error', 'traceback'}` payload with exit code 1. -/
def program : Except (String × String) Spreadsheet → Output
  | .error e => ⟨.errorTraceback e.1 e.2, 1⟩
  | .ok s => runScript s

/-- Spec-side predicate: the identifier cell is present and its stripped
form is non-empty and differs from `"nan"` and `"None"`. -/
def validIdCell : Option String → Bool
  | none => false
  | some v => decide (pyStrip v ≠ "" ∧ pyStrip v ≠ "nan" ∧ pyStrip v ≠ "None")

/-- Spec-side record constructor for a row that passes `validIdCell`. -/
def recordOf (ic rc : String) (r : Row) : Record :=
  ⟨pyStrip ((r ic).getD ""), reasonOut ((r rc).map pyStrip)⟩

/-- Concrete row: a valid identifier (with surrounding blanks) and a
present reason. -/
def wRowA : Row := fun c =>
  if c = "Response ID" then some " R1 "
  else if c = "Reason for Rejection" then some "Too slow"
  else none

/-- Concrete row: a valid identifier and a missing reason cell. -/
def wRowB : Row := fun c =>
  if c = "Response ID" then some "R2" else none

/-- Concrete spreadsheet on which both columns resolve. -/
def wSheetOK : Spreadsheet :=
  ⟨["Response ID", "Reason for Rejection"], [wRowA, wRowB]⟩

/-- Concrete spreadsheet with no identifier-matching column. -/
def wSheetNoId : Spreadsheet := ⟨["Name", "Comment"], []⟩

/-- Concrete spreadsheet with an identifier column but no reason column. -/
def wSheetNoReason : Spreadsheet := ⟨["Response ID", "Name"], []⟩

/-- Concrete spreadsheet with both columns and no rows. -/
def wSheetEmptyRows : Spreadsheet :=
  ⟨["Response ID", "Reason for Rejection"], []⟩

/-- Concrete row whose reason cell strips to the literal `"nan"`. -/
def wRowNan : Row := fun c =>
  if c = "I" then some " x1 " else some "  nan "

/-- Concrete row whose reason cell strips to the literal `"None"`. -/
def wRowReasonNone : Row := fun c =>
  if c = "I" then some "ok" else some " None "

/-- Concrete row whose identifier cell strips to the literal `"None"`. -/
def wRowIdNone : Row := fun c =>
  if c = "I" then some " None " else some "fine"

/-- Last-wins update: a new candidate `o` overrides the accumulator `d`. -/
def lastWins (o d : Option String) : Option String :=
  match o with
  | some x => some x
  | none => d

theorem lastWins_none (d : Option String) : lastWins none d = d := rfl

theorem lastWins_some (x : String) (d : Option String) :
    lastWins (some x) d = some x := rfl

/-- The fold of the column loop, with an arbitrary accumulator: each
component ends as the last matching column, with the accumulator as
fallback. -/
theorem resolveCols_foldl (cols : List String) (a b : Option String) :
    cols.foldl
      (fun acc col =>
        (if matchesId col then some col else acc.1,
         if matchesReason col then some col else acc.2))
      (a, b) =
      (lastWins ((cols.filter matchesId).getLast?) a,
       lastWins ((cols.filter matchesReason).getLast?) b) := by
  induction cols generalizing a b with
  | nil => simp [lastWins]
  | cons c t ih =>
      rw [List.foldl_cons, ih]
      congr 1
      · by_cases h : matchesId c
        · simp only [List.filter_cons, h, if_pos, List.getLast?_cons]
          cases hlast : (t.filter matchesId).getLast? with
          | none => simp [hlast, lastWins]
          | some x => simp [hlast, lastWins]
        · simp [List.filter_cons, h, lastWins]
      · by_cases h : matchesReason c
        · simp only [List.filter_cons, h, if_pos, List.getLast?_cons]
          cases hlast : (t.filter matchesReason).getLast? with
          | none => simp [hlast, lastWins]
          | some x => simp [hlast, lastWins]
        · simp [List.filter_cons, h, lastWins]

/-- Column resolution computes, for each role, the last matching column. -/
theorem resolveCols_eq (cols : List String) :
    resolveCols cols =
      ((cols.filter matchesId).getLast?, (cols.filter matchesReason).getLast?) := by
  rw [resolveCols, resolveCols_foldl]
  cases (cols.filter matchesId).getLast? <;>
    cases (cols.filter matchesReason).getLast? <;> simp [lastWins]

/-- `stripChars` is front-trim followed by Mathlib's back-trim. -/
theorem stripChars_eq_rdropWhile (l : List Char) :
    stripChars l = List.rdropWhile pySpace (l.dropWhile pySpace) := rfl

/-- Stripping is idempotent on character lists. -/
theorem stripChars_idem (l : List Char) :
    stripChars (stripChars l) = stripChars l := by
  rw [stripChars_eq_rdropWhile, stripChars_eq_rdropWhile]
  have hy : (l.dropWhile pySpace).dropWhile pySpace = l.dropWhile pySpace :=
    List.dropWhile_idempotent pySpace l
  have hm : (List.rdropWhile pySpace (l.dropWhile pySpace)).dropWhile pySpace =
      List.rdropWhile pySpace (l.dropWhile pySpace) := by
    rcases hp : List.rdropWhile pySpace (l.dropWhile pySpace) with _ | ⟨a, ms⟩
    · simp
    · obtain ⟨t, ht⟩ := List.rdropWhile_prefix (p := pySpace) (l := l.dropWhile pySpace)
      rw [hp] at ht
      have ht2 : a :: (ms ++ t) = l.dropWhile pySpace := ht
      have hcons : (a :: (ms ++ t)).dropWhile pySpace = a :: (ms ++ t) := by
        rw [ht2]; exact hy
      have hya : ¬ pySpace a := by
        intro hpa
        rw [List.dropWhile_cons_of_pos hpa] at hcons
        have hsub := (List.dropWhile_sublist (l := ms ++ t) pySpace).length_le
        rw [hcons] at hsub
        simp at hsub
      exact List.dropWhile_cons_of_neg hya
  rw [hm, List.rdropWhile_idempotent]

/-- Python `strip` is idempotent. -/
theorem pyStrip_idem (s : String) : pyStrip (pyStrip s) = pyStrip s := by
  show String.mk (stripChars (stripChars s.toList)) = String.mk (stripChars s.toList)
  rw [stripChars_idem]

/-- The row loop emits a record exactly when the identifier cell is valid,
and the record is the one built from the stripped cells. -/
theorem processRow_eq (ic rc : String) (r : Row) :
    processRow ic rc r =
      if validIdCell (r ic) then some (recordOf ic rc r) else none := by
  cases h : r ic with
  | none => simp [processRow, validIdCell, h]
  | some v =>
      by_cases hcond : pyStrip v ≠ "" ∧ pyStrip v ≠ "nan" ∧ pyStrip v ≠ "None" <;>
        simp [processRow, validIdCell, recordOf, h, hcond]

/-- A `filterMap` by a guarded constructor is a `filter` then a `map`. -/
theorem filterMap_guard {α β : Type} (p : α → Bool) (f : α → β) (l : List α) :
    l.filterMap (fun a => if p a then some (f a) else none) =
      (l.filter p).map f := by
  induction l with
  | nil => rfl
  | cons a t ih =>
      by_cases h : p a <;> simp [List.filterMap_cons, List.filter_cons, h, ih]

/-- Inversion: what an emitted record looks like. -/
theorem processRow_some (ic rc : String) (r : Row) (rec : Record)
    (h : processRow ic rc r = some rec) :
    ∃ v, r ic = some v ∧ rec.responseId = pyStrip v ∧
      pyStrip v ≠ "" ∧ pyStrip v ≠ "nan" ∧ pyStrip v ≠ "None" ∧
      rec.reason = reasonOut ((r rc).map pyStrip) := by
  cases hic : r ic with
  | none => simp [processRow, hic] at h
  | some v =>
      simp only [processRow, hic] at h
      by_cases hcond : pyStrip v ≠ "" ∧ pyStrip v ≠ "nan" ∧ pyStrip v ≠ "None"
      · rw [if_pos hcond] at h
        refine ⟨v, rfl, ?_, hcond.1, hcond.2.1, hcond.2.2, ?_⟩ <;>
          cases h <;> rfl
      · rw [if_neg hcond] at h; simp at h

/-- The emitted reason is never empty and never the string `"nan"`. -/
theorem reasonOut_ne (o : Option String) :
    reasonOut o ≠ "" ∧ reasonOut o ≠ "nan" := by
  cases o with
  | none => exact ⟨by decide, by decide⟩
  | some v =>
      simp only [reasonOut]
      by_cases hcond : v ≠ "" ∧ v ≠ "nan"
      · rw [if_pos hcond]; exact hcond
      · rw [if_neg hcond]; exact ⟨by decide, by decide⟩

/-- The emitted reason is strip-fixed whenever the input cell is. -/
theorem reasonOut_strip (o : Option String) (ho : ∀ u, o = some u → pyStrip u = u) :
    pyStrip (reasonOut o) = reasonOut o := by
  cases o with
  | none => decide
  | some v =>
      simp only [reasonOut]
      by_cases hcond : v ≠ "" ∧ v ≠ "nan"
      · rw [if_pos hcond]; exact ho v rfl
      · rw [if_neg hcond]; decide

/-- No column with an empty name can match the identifier heuristic. -/
theorem matchesId_ne_empty (c : String) (h : matchesId c = true) : c ≠ "" := by
  intro hc
  rw [hc] at h
  exact absurd h (by decide)

/-- No column with an empty name can match the reason heuristic. -/
theorem matchesReason_ne_empty (c : String) (h : matchesReason c = true) : c ≠ "" := by
  intro hc
  rw [hc] at h
  exact absurd h (by decide)

/-- Success branch of the script, given both columns resolved (to non-empty
names, which resolution guarantees). -/
theorem runScript_success (s : Spreadsheet) (ic rc : String)
    (h1 : (resolveCols s.columns).1 = some ic)
    (h2 : (resolveCols s.columns).2 = some rc)
    (hic : ic ≠ "") (hrc : rc ≠ "") :
    runScript s =
      ⟨Payload.success (s.rows.filterMap (processRow ic rc))
        (s.rows.filterMap (processRow ic rc)).length, 0⟩ := by
  simp [runScript, h1, h2, pyFalsyOpt, hic, hrc]

/-- Identifier-missing branch of the script. -/
theorem runScript_noId (s : Spreadsheet)
    (h : ∀ c ∈ s.columns, matchesId c = false) :
    runScript s = ⟨Payload.errorColumns "Response ID column not found" s.columns, 1⟩ := by
  have hfil : s.columns.filter matchesId = [] :=
    List.filter_eq_nil_iff.mpr (by intro a ha; simp [h a ha])
  simp [runScript, resolveCols_eq, hfil, pyFalsyOpt]

/-- Reason-missing branch of the script: an identifier column exists but no
column matches the reason heuristic. -/
theorem runScript_noReason (s : Spreadsheet)
    (h1 : ∃ c ∈ s.columns, matchesId c = true)
    (h2 : ∀ c ∈ s.columns, matchesReason c = false) :
    runScript s =
      ⟨Payload.errorColumns "Reason for Rejection column not found" s.columns, 1⟩ := by
  obtain ⟨c, hc, hm⟩ := h1
  have hne : s.columns.filter matchesId ≠ [] := by
    intro hnil
    have hmem : c ∈ s.columns.filter matchesId := List.mem_filter.mpr ⟨hc, hm⟩
    rw [hnil] at hmem
    simp at hmem
  obtain ⟨x, hx⟩ : ∃ x, (s.columns.filter matchesId).getLast? = some x := by
    cases hg : (s.columns.filter matchesId).getLast? with
    | none => exact absurd (List.getLast?_eq_none_iff.mp hg) hne
    | some x => exact ⟨x, rfl⟩
  have hxm : matchesId x = true :=
    (List.mem_filter.mp (List.mem_of_getLast?_eq_some hx)).2
  have hxe : x ≠ "" := matchesId_ne_empty x hxm
  have hrfil : s.columns.filter matchesReason = [] :=
    List.filter_eq_nil_iff.mpr (by intro a ha; simp [h2 a ha])
  simp [runScript, resolveCols_eq, hx, hrfil, pyFalsyOpt, hxe]

-- sanity checks on concrete inputs
example : matchesId "Response_ID_2" = true := by decide
example : matchesId "RESPONSE identifier" = true := by decide
example : matchesId "Name" = false := by decide
example : matchesReason "Reason for Rejection" = true := by decide
example : pyStrip "  R1 \t" = "R1" := by decide
example : resolveCols ["Name", "Response ID", "response-id-b"] =
    (some "response-id-b", none) := by decide

/-- C1: for every list of column names, the identifier role resolves to the
last column in scan order whose case-folded name contains both `"response"`
and `"id"`, and the reason role to the last column whose case-folded name
contains both `"reason"` and `"rejection"`; matching is substring-based and
case-insensitive, so `"Response_ID_2"` and `"RESPONSE identifier"` both
match the identifier role. -/
theorem extractor_C1 :
    (∀ cols : List String,
      resolveCols cols =
        ((cols.filter matchesId).getLast?, (cols.filter matchesReason).getLast?)) ∧
    matchesId "Response_ID_2" = true ∧ matchesId "RESPONSE identifier" = true :=
  ⟨resolveCols_eq, by decide, by decide⟩

/-- C2: when both columns resolve, the script succeeds, and the data list
contains, in original row order, exactly one record per row whose identifier
cell is present and strips to a non-empty string different from `"nan"` and
`"None"`; every other row produces no record. -/
theorem extractor_C2 (s : Spreadsheet) (ic rc : String)
    (h1 : (resolveCols s.columns).1 = some ic)
    (h2 : (resolveCols s.columns).2 = some rc)
    (hic : ic ≠ "") (hrc : rc ≠ "") :
    ∃ data, runScript s = ⟨Payload.success data data.length, 0⟩ ∧
      data = (s.rows.filter (fun r => validIdCell (r ic))).map (recordOf ic rc) := by
  refine ⟨s.rows.filterMap (processRow ic rc),
    runScript_success s ic rc h1 h2 hic hrc, ?_⟩
  have hfun : processRow ic rc =
      fun r => if validIdCell (r ic) then some (recordOf ic rc r) else none :=
    funext (processRow_eq ic rc)
  rw [hfun, filterMap_guard]

/-- C2 witness: on a concrete two-row spreadsheet the theorem applies. -/
theorem extractor_C2_witness :
    ∃ data, runScript wSheetOK = ⟨Payload.success data data.length, 0⟩ ∧
      data = (wSheetOK.rows.filter (fun r => validIdCell (r "Response ID"))).map
          (recordOf "Response ID" "Reason for Rejection") :=
  extractor_C2 wSheetOK "Response ID" "Reason for Rejection"
    (by decide) (by decide) (by decide) (by decide)

/-- C3: for every emitted record, a missing reason cell, or one stripping to
the empty string or to `"nan"`, yields the literal reason
`"Manual Rejection"`; otherwise the reason is the stripped cell text. -/
theorem extractor_C3 (ic rc : String) (r : Row) (rec : Record)
    (h : processRow ic rc r = some rec) :
    (r rc = none → rec.reason = "Manual Rejection") ∧
    (∀ v, r rc = some v → (pyStrip v = "" ∨ pyStrip v = "nan") →
      rec.reason = "Manual Rejection") ∧
    (∀ v, r rc = some v → pyStrip v ≠ "" → pyStrip v ≠ "nan" →
      rec.reason = pyStrip v) := by
  obtain ⟨w, hw, hrid, hne, hnan, hnone, hreason⟩ := processRow_some ic rc r rec h
  refine ⟨?_, ?_, ?_⟩
  · intro hnil
    rw [hnil] at hreason
    simpa [reasonOut] using hreason
  · intro v hv hcase
    rw [hv] at hreason
    simp only [Option.map_some'] at hreason
    rcases hcase with hc | hc <;> rw [hc] at hreason <;> rw [hreason] <;> decide
  · intro v hv hne2 hnan2
    rw [hv] at hreason
    simp only [Option.map_some'] at hreason
    rw [hreason]
    simp [reasonOut, hne2, hnan2]

/-- C3 witness: a concrete row whose reason cell strips to `"nan"` is
emitted with the default reason. -/
theorem extractor_C3_witness :
    (wRowNan "R" = none → (Record.mk "x1" "Manual Rejection").reason = "Manual Rejection") ∧
    (∀ v, wRowNan "R" = some v → (pyStrip v = "" ∨ pyStrip v = "nan") →
      (Record.mk "x1" "Manual Rejection").reason = "Manual Rejection") ∧
    (∀ v, wRowNan "R" = some v → pyStrip v ≠ "" → pyStrip v ≠ "nan" →
      (Record.mk "x1" "Manual Rejection").reason = pyStrip v) :=
  extractor_C3 "I" "R" wRowNan ⟨"x1", "Manual Rejection"⟩ (by decide)

/-- C4: when no column matches the identifier heuristic, the script emits
exactly the `Response ID column not found` error payload, with the full
column list, and exits with code 1. -/
theorem extractor_C4 (s : Spreadsheet)
    (h : ∀ c ∈ s.columns, matchesId c = false) :
    runScript s = ⟨Payload.errorColumns "Response ID column not found" s.columns, 1⟩ :=
  runScript_noId s h

/-- C4 witness: the spreadsheet with columns `Name`, `Comment`. -/
theorem extractor_C4_witness :
    runScript wSheetNoId =
      ⟨Payload.errorColumns "Response ID column not found" wSheetNoId.columns, 1⟩ :=
  extractor_C4 wSheetNoId (by decide)

/-- C5: when a column matches the identifier heuristic but none matches the
reason heuristic, the script emits exactly the
`Reason for Rejection column not found` error payload and exits with code 1;
and because the identifier check runs first, whenever no identifier column
exists only the identifier error is reported. -/
theorem extractor_C5 (s : Spreadsheet) :
    ((∃ c ∈ s.columns, matchesId c = true) →
     (∀ c ∈ s.columns, matchesReason c = false) →
      runScript s =
        ⟨Payload.errorColumns "Reason for Rejection column not found" s.columns, 1⟩) ∧
    ((∀ c ∈ s.columns, matchesId c = false) →
      runScript s =
        ⟨Payload.errorColumns "Response ID column not found" s.columns, 1⟩) :=
  ⟨fun h1 h2 => runScript_noReason s h1 h2, fun h => runScript_noId s h⟩

/-- C5 witness: a sheet with an identifier column and no reason column gets
the reason error; a sheet with neither gets the identifier error. -/
theorem extractor_C5_witness :
    runScript wSheetNoReason =
      ⟨Payload.errorColumns "Reason for Rejection column not found"
        wSheetNoReason.columns, 1⟩ ∧
    runScript wSheetNoId =
      ⟨Payload.errorColumns "Response ID column not found" wSheetNoId.columns, 1⟩ :=
  ⟨(extractor_C5 wSheetNoReason).1 (by decide) (by decide),
   (extractor_C5 wSheetNoId).2 (by decide)⟩

/-- C6: in every success payload the `total` field equals the length of the
`data` list. -/
theorem extractor_C6 (inp : Except (String × String) Spreadsheet)
    (data : List Record) (total ec : Nat)
    (h : program inp = ⟨Payload.success data total, ec⟩) :
    total = data.length := by
  cases inp with
  | error e => simp [program] at h
  | ok s =>
      have hrun : runScript s = ⟨Payload.success data total, ec⟩ := h
      simp only [runScript] at hrun
      split at hrun
      · simp at hrun
      · split at hrun
        · simp at hrun
        · injection hrun with hp he
          injection hp with hd ht
          rw [← ht, hd]

/-- C6 witness: the empty spreadsheet succeeds with `total = 0 = length []`. -/
theorem extractor_C6_witness : (0 : Nat) = ([] : List Record).length :=
  extractor_C6 (Except.ok wSheetEmptyRows) [] 0 0 (by decide)

/-- C7: a failure during loading is caught and reported as the
`error`/`traceback` payload, with exit code 1. -/
theorem extractor_C7 (msg tb : String) :
    program (Except.error (msg, tb)) = ⟨Payload.errorTraceback msg tb, 1⟩ := rfl

/-- C8: every invocation produces exactly one payload; the exit code is 0
exactly when that payload is the success payload, and is 1 on every error
path. -/
theorem extractor_C8 (inp : Except (String × String) Spreadsheet) :
    ((program inp).exitCode = 0 ↔ ∃ d t, (program inp).payload = Payload.success d t) ∧
    ((program inp).exitCode = 0 ∨ (program inp).exitCode = 1) := by
  cases inp with
  | error e => simp [program]
  | ok s =>
      have hpe : program (Except.ok s) = runScript s := rfl
      rw [hpe]
      simp only [runScript]
      split
      · simp
      · split
        · simp
        · simp

/-- C9: every record of the success payload has a non-empty, strip-fixed
identifier different from `"nan"` and `"None"`, and a non-empty, strip-fixed
reason different from `"nan"`. -/
theorem extractor_C9 (s : Spreadsheet) (data : List Record) (total ec : Nat)
    (h : runScript s = ⟨Payload.success data total, ec⟩) :
    ∀ rec ∈ data,
      rec.responseId ≠ "" ∧ pyStrip rec.responseId = rec.responseId ∧
      rec.responseId ≠ "nan" ∧ rec.responseId ≠ "None" ∧
      rec.reason ≠ "" ∧ pyStrip rec.reason = rec.reason ∧ rec.reason ≠ "nan" := by
  simp only [runScript] at h
  split at h
  · simp at h
  · split at h
    · simp at h
    · injection h with hp he
      injection hp with hd ht
      subst hd
      intro rec hrec
      obtain ⟨r, hr, hpr⟩ := List.mem_filterMap.mp hrec
      obtain ⟨v, hv, hrid, hne, hnan, hnone, hreason⟩ := processRow_some _ _ r rec hpr
      refine ⟨?_, ?_, ?_, ?_, ?_, ?_, ?_⟩
      · rw [hrid]; exact hne
      · rw [hrid]; exact pyStrip_idem v
      · rw [hrid]; exact hnan
      · rw [hrid]; exact hnone
      · rw [hreason]; exact (reasonOut_ne _).1
      · rw [hreason]
        apply reasonOut_strip
        intro u hu
        cases hx : r ((resolveCols s.columns).2.getD "") with
        | none => rw [hx] at hu; simp at hu
        | some w =>
            rw [hx] at hu
            simp only [Option.map_some'] at hu
            cases hu
            exact pyStrip_idem w
      · rw [hreason]; exact (reasonOut_ne _).2

/-- C9 witness: the first record of the concrete spreadsheet satisfies the
invariant. -/
theorem extractor_C9_witness :
    (Record.mk "R1" "Too slow").responseId ≠ "" ∧
    pyStrip (Record.mk "R1" "Too slow").responseId = (Record.mk "R1" "Too slow").responseId ∧
    (Record.mk "R1" "Too slow").responseId ≠ "nan" ∧
    (Record.mk "R1" "Too slow").responseId ≠ "None" ∧
    (Record.mk "R1" "Too slow").reason ≠ "" ∧
    pyStrip (Record.mk "R1" "Too slow").reason = (Record.mk "R1" "Too slow").reason ∧
    (Record.mk "R1" "Too slow").reason ≠ "nan" :=
  extractor_C9 wSheetOK [Record.mk "R1" "Too slow", Record.mk "R2" "Manual Rejection"]
    2 0 (by decide) (Record.mk "R1" "Too slow") (by decide)

/-- C10: the sentinel sets are asymmetric — a reason cell stripping to
`"None"` is emitted verbatim, while an identifier cell stripping to `"None"`
makes the whole row be skipped. -/
theorem extractor_C10 (ic rc : String) (r : Row) :
    (∀ v rec, r rc = some v → pyStrip v = "None" →
      processRow ic rc r = some rec → rec.reason = "None") ∧
    (∀ v, r ic = some v → pyStrip v = "None" → processRow ic rc r = none) := by
  constructor
  · intro v rec hv hstrip hpr
    obtain ⟨w, hw, hrid, _, _, _, hreason⟩ := processRow_some ic rc r rec hpr
    rw [hv] at hreason
    simp only [Option.map_some'] at hreason
    rw [hstrip] at hreason
    rw [hreason]
    decide
  · intro v hv hstrip
    simp only [processRow, hv, hstrip]
    exact if_neg (by decide)

/-- C10 witness: a reason cell `" None "` comes out as `"None"`, and a row
whose identifier cell is `" None "` is dropped. -/
theorem extractor_C10_witness :
    (Record.mk "ok" "None").reason = "None" ∧ processRow "I" "R" wRowIdNone = none :=
  ⟨(extractor_C10 "I" "R" wRowReasonNone).1 " None " ⟨"ok", "None"⟩
      (by decide) (by decide) (by decide),
   (extractor_C10 "I" "R" wRowIdNone).2 " None " (by decide) (by decide)⟩
